import Mathlib

/-!
Shallow embedding of the `ekai-gateway` model-catalog tooling:
`model_catalog/build_ui.py` (the Bundler), `model_catalog/verify.py`,
`model_catalog/validate_models.py` and `gateway/src/model_catalog/verify.py`
(the Validator variants).

JSON values are modelled by an inductive `Json`; Python dicts (as produced
by `json.load` on a JSON object) are association lists with unique keys in
insertion order.  JSON numbers are modelled as integers, which is enough
for every claim.  File contents are modelled as parse results: either a
decoded `Json` value or a decode error carrying message/line/column, which
is what `json.JSONDecodeError` carries.
-/

inductive Json where
  | null
  | bool (b : Bool)
  | num (n : Int)
  | str (s : String)
  | arr (xs : List Json)
  | obj (kvs : List (String × Json))
deriving Repr

/-- Python truthiness of a decoded JSON value: `None`, `False`, `0`, `""`,
`[]` and `{}` are falsy, everything else truthy.  Used because
`build_ui.py` writes `obj.get('provider') or 'unknown'`. -/
def Json.truthy : Json → Bool
  | .null => false
  | .bool b => b
  | .num n => n != 0
  | .str s => s != ""
  | .arr xs => !xs.isEmpty
  | .obj kvs => !kvs.isEmpty

mutual

/-- Python `repr` of a decoded JSON value (strings get quoted).  Modelled
for strings without embedded quotes, which covers all catalog data. -/
def Json.pyRepr : Json → String
  | .null => "None"
  | .bool true => "True"
  | .bool false => "False"
  | .num n => toString n
  | .str s => "'" ++ s ++ "'"
  | .arr xs => "[" ++ Json.pyReprList xs ++ "]"
  | .obj kvs => "\x7b" ++ Json.pyReprPairs kvs ++ "\x7d"

def Json.pyReprList : List Json → String
  | [] => ""
  | [x] => Json.pyRepr x
  | x :: xs => Json.pyRepr x ++ ", " ++ Json.pyReprList xs

def Json.pyReprPairs : List (String × Json) → String
  | [] => ""
  | [kv] => "'" ++ kv.1 ++ "': " ++ Json.pyRepr kv.2
  | kv :: kvs => "'" ++ kv.1 ++ "': " ++ Json.pyRepr kv.2 ++ ", " ++ Json.pyReprPairs kvs

end

/-- Python `str` of a decoded JSON value, as used by f-string interpolation
in `build_ui.py`: identical to `repr` except on strings. -/
def Json.pyStr : Json → String
  | .str s => s
  | v => v.pyRepr

/-- `d.get(k)` on a Python dict modelled as an association list. -/
def getKey (kvs : List (String × Json)) (k : String) : Option Json :=
  match kvs with
  | [] => none
  | kv :: rest => if kv.1 = k then some kv.2 else getKey rest k

/-- `d[k] = v` on a Python dict: replace the value in place if the key is
present (keeping its position), otherwise append the pair at the end. -/
def setKey (kvs : List (String × Json)) (k : String) (v : Json) : List (String × Json) :=
  match kvs with
  | [] => [(k, v)]
  | kv :: rest => if kv.1 = k then (k, v) :: rest else kv :: setKey rest k v

/-- Key lookup on an arbitrary decoded value: only objects have keys. -/
def jget (j : Json) (k : String) : Option Json :=
  match j with
  | .obj kvs => getKey kvs k
  | _ => none

/-- Result of `json.load` on one file. -/
inductive ParseResult where
  | ok (v : Json)
  | decodeError (msg : String) (line col : Nat)
deriving Repr

/-- A file of the models directory: its name (`p.name`) and what
`json.load` yields on its contents. -/
structure SrcFile where
  name : String
  parsed : ParseResult
deriving Repr

/-- `PurePath.stem`: the final component without its suffix.  The suffix
starts at the last dot, provided that dot is neither the first nor the
last character of the name. -/
def stem (name : String) : String :=
  let cs := name.data
  match (List.range cs.length).filter (fun i => cs.get? i = some '.') |>.getLast? with
  | none => name
  | some i => if 0 < i ∧ i < cs.length - 1 then ⟨cs.take i⟩ else name

/-- `fnmatch`-style test for the glob pattern `*.json`: the name ends with
`.json`. -/
def matchesJsonGlob (name : String) : Bool :=
  List.isSuffixOf ".json".data name.data

example : stem "gpt5.json" = "gpt5" := by decide
example : stem "a.b.json" = "a.b" := by decide
example : stem "noext" = "noext" := by decide
example : stem ".json" = ".json" := by decide
example : Json.pyStr (.arr [.num 1, .str "a"]) = "[1, 'a']" := by decide

/-- Lexicographic order on code-point sequences: Python's `str` comparison. -/
def charListLE : List Char → List Char → Bool
  | [], _ => true
  | _ :: _, [] => false
  | a :: as, b :: bs =>
    if a < b then true
    else if b < a then false
    else charListLE as bs

theorem charListLE_cons_iff (a b : Char) (as bs : List Char) :
    charListLE (a :: as) (b :: bs) = true ↔
      a < b ∨ (a = b ∧ charListLE as bs = true) := by
  by_cases hab : a < b
  · simp [charListLE, hab]
  · by_cases hba : b < a
    · simp only [charListLE, if_neg hab, if_pos hba]
      constructor
      · intro h; cases h
      · rintro (h | ⟨rfl, _⟩)
        · exact absurd h hab
        · exact absurd hba (lt_irrefl _)
    · have heq : a = b := le_antisymm (not_lt.mp hba) (not_lt.mp hab)
      simp [charListLE, hab, hba, heq]

theorem charListLE_total (as bs : List Char) :
    charListLE as bs = true ∨ charListLE bs as = true := by
  induction as generalizing bs with
  | nil => left; rfl
  | cons a as ih =>
    cases bs with
    | nil => right; rfl
    | cons b bs =>
      rcases lt_trichotomy a b with h | h | h
      · left; exact (charListLE_cons_iff _ _ _ _).mpr (Or.inl h)
      · rcases ih bs with h' | h'
        · left; exact (charListLE_cons_iff _ _ _ _).mpr (Or.inr ⟨h, h'⟩)
        · right; exact (charListLE_cons_iff _ _ _ _).mpr (Or.inr ⟨h.symm, h'⟩)
      · right; exact (charListLE_cons_iff _ _ _ _).mpr (Or.inl h)

theorem charListLE_trans (as bs cs : List Char)
    (h1 : charListLE as bs = true) (h2 : charListLE bs cs = true) :
    charListLE as cs = true := by
  induction as generalizing bs cs with
  | nil => rfl
  | cons a as ih =>
    cases bs with
    | nil => cases h1
    | cons b bs =>
      cases cs with
      | nil => cases h2
      | cons c cs =>
        rcases (charListLE_cons_iff _ _ _ _).mp h1 with hb | ⟨rfl, hb⟩ <;>
          rcases (charListLE_cons_iff _ _ _ _).mp h2 with hc | ⟨rfl, hc⟩
        · exact (charListLE_cons_iff _ _ _ _).mpr (Or.inl (lt_trans hb hc))
        · exact (charListLE_cons_iff _ _ _ _).mpr (Or.inl hb)
        · exact (charListLE_cons_iff _ _ _ _).mpr (Or.inl hc)
        · exact (charListLE_cons_iff _ _ _ _).mpr (Or.inr ⟨rfl, ih bs cs hb hc⟩)

/-- Filename comparison used by `sorted(models_dir.glob('*.json'))`: inside
a single directory, `Path` ordering is code-point-lexicographic comparison
of the file names.  Python's stable `sorted` is modelled by insertion sort,
which agrees with it on lists of files with pairwise distinct names (the
only lists a real directory produces). -/
def fileLE (a b : SrcFile) : Prop := charListLE a.name.data b.name.data = true

instance : DecidableRel fileLE := fun a b =>
  inferInstanceAs (Decidable (charListLE a.name.data b.name.data = true))

instance : IsTotal SrcFile fileLE := ⟨fun a b => charListLE_total a.name.data b.name.data⟩

instance : IsTrans SrcFile fileLE :=
  ⟨fun _ _ _ h1 h2 => charListLE_trans _ _ _ h1 h2⟩

/-- `models_dir.glob('*.json')`: the directory entries matching the
pattern. -/
def jsonFiles (files : List SrcFile) : List SrcFile :=
  files.filter (fun f => matchesJsonGlob f.name)

/-- `sorted(models_dir.glob('*.json'))`: the `*.json` entries in
ascending filename order. -/
def globSorted (files : List SrcFile) : List SrcFile :=
  List.insertionSort fileLE (jsonFiles files)

/-- The value `obj.get(k) or default` evaluates to in Python: the looked-up
value when present and truthy, otherwise the default. -/
def getOrDefault (kvs : List (String × Json)) (k : String) (default : Json) : Json :=
  match getKey kvs k with
  | some v => if v.truthy then v else default
  | none => default

/-- The `id` string `load_models` derives for a record read from file
`name` with dict `kvs`:

    provider = obj.get('provider') or 'unknown'
    model_name = obj.get('model_name') or p.stem
    f"{provider}/{model_name}"
-/
def deriveId (name : String) (kvs : List (String × Json)) : String :=
  (getOrDefault kvs "provider" (.str "unknown")).pyStr ++ "/" ++
    (getOrDefault kvs "model_name" (.str (stem name))).pyStr

/-- The body of `load_models`' `try` block for one file `p`, after
`json.load` succeeded with value `v`:

    provider = obj.get('provider') or 'unknown'
    model_name = obj.get('model_name') or p.stem
    obj['id'] = f"{provider}/{model_name}"
    obj['__filename'] = p.name
    models.append(obj)

When `v` is not a dict, `obj.get` raises `AttributeError`, which the
enclosing `except Exception` turns into a skip (`none`). -/
def bundledRecord (name : String) (kvs : List (String × Json)) : Json :=
  .obj (setKey (setKey kvs "id" (.str (deriveId name kvs))) "__filename" (.str name))

def processValue (name : String) (v : Json) : Option Json :=
  match v with
  | .obj kvs => some (bundledRecord name kvs)
  | _ => none

/-- One iteration of the `load_models` loop: `some` record appended to
`models`, or `none` when the `except Exception` branch printed a warning
and skipped the file. -/
def processFile (f : SrcFile) : Option Json :=
  match f.parsed with
  | .ok v => processValue f.name v
  | .decodeError _ _ _ => none

/-- Python's text for the exception `e` that made `load_models` skip the
file: the `json.JSONDecodeError` text (message, line and column; the
trailing character offset is not modelled), or the `AttributeError` text
raised by `obj.get` when the parsed top level is not a dict.  A file
parsing to a dict is never skipped, so the `obj` branch is unreachable. -/
def skipError (f : SrcFile) : String :=
  match f.parsed with
  | .decodeError msg line col =>
    msg ++ ": line " ++ toString line ++ " column " ++ toString col
  | .ok v =>
    match v with
    | .arr _ => "'list' object has no attribute 'get'"
    | .str _ => "'str' object has no attribute 'get'"
    | .num _ => "'int' object has no attribute 'get'"
    | .bool _ => "'bool' object has no attribute 'get'"
    | .null => "'NoneType' object has no attribute 'get'"
    | .obj _ => ""

/-- `print(f"[warn] Skipping {p.name}: {e}")` from `load_models`. -/
def skipWarning (f : SrcFile) : String :=
  "[warn] Skipping " ++ f.name ++ ": " ++ skipError f

/-- `load_models(models_dir)`: the collected `models` list together with
the warnings printed along the way. -/
def loadModels (files : List SrcFile) : List Json × List String :=
  ((globSorted files).filterMap processFile,
   ((globSorted files).filter (fun f => (processFile f).isNone)).map skipWarning)

/-- The bundle object `write_bundle` serialises:
`{'generated_at': now, 'models': models}`. -/
structure Bundle where
  generated_at : String
  models : List Json
deriving Repr

/-- `write_bundle`'s construction of the bundle at timestamp `now`. -/
def mkBundle (now : String) (models : List Json) : Bundle :=
  { generated_at := now, models := models }

/-- `main()`: fail with `SystemExit` when the models directory does not
exist, otherwise load the models and write the bundle. -/
def mainRun (dirExists : Bool) (files : List SrcFile) (now : String) :
    Except String Bundle :=
  if dirExists then .ok (mkBundle now (loadModels files).1)
  else .error "Models directory not found"

/-! ### The Validator variants

The validators call `jsonschema.validate`, a third-party library.  Its
semantics is modelled here for the schema fragment the catalog uses:
`type`, `required` and `properties` keywords, Draft-7 behaviour
(`required`/`properties` are ignored on non-object instances; `required`
yields one error per missing property, attached to the object itself;
`properties` errors extend the structural path by the property name).
`jsonschema.validate` collects the errors of the instance and raises
exactly one `ValidationError` — `best_match` of them — when any exist. -/

/-- A `jsonschema` `ValidationError`: its structural path (`e.path`, with
array indices already rendered) and its message (`e.message`). -/
structure VError where
  path : List String
  message : String
deriving Repr, DecidableEq

inductive SType where
  | objectT | stringT | integerT | arrayT | booleanT | nullT
deriving Repr, DecidableEq

def SType.nameOf : SType → String
  | .objectT => "object"
  | .stringT => "string"
  | .integerT => "integer"
  | .arrayT => "array"
  | .booleanT => "boolean"
  | .nullT => "null"

/-- Draft-7 `type` keyword check (booleans are special-cased not to count
as integers, as the library does). -/
def SType.check : SType → Json → Bool
  | .objectT, .obj _ => true
  | .stringT, .str _ => true
  | .integerT, .num _ => true
  | .arrayT, .arr _ => true
  | .booleanT, .bool _ => true
  | .nullT, .null => true
  | _, _ => false

/-- The schema fragment the catalog's schemas use: an optional `type`, a
`required` list and a `properties` map. -/
inductive MiniSchema where
  | mk (type? : Option SType) (required : List String)
       (properties : List (String × MiniSchema))

mutual

/-- `Draft7Validator.iter_errors`: every constraint the instance violates,
in keyword order `type`, `required`, `properties`. -/
def iterErrors : MiniSchema → Json → List VError
  | .mk t? req props, v =>
    (match t? with
     | none => []
     | some t =>
       if t.check v then []
       else [⟨[], v.pyRepr ++ " is not of type '" ++ t.nameOf ++ "'"⟩]) ++
    (match v with
     | .obj kvs =>
       ((req.filter (fun k => (getKey kvs k).isNone)).map
         (fun k => ⟨[], "'" ++ k ++ "' is a required property"⟩)) ++
       iterErrorsProps props kvs
     | _ => [])

def iterErrorsProps : List (String × MiniSchema) → List (String × Json) → List VError
  | [], _ => []
  | (k, sub) :: rest, kvs =>
    (match getKey kvs k with
     | some pv => (iterErrors sub pv).map (fun e => ⟨k :: e.path, e.message⟩)
     | none => []) ++ iterErrorsProps rest kvs

end

/-- `jsonschema.validate(instance, schema)`: `none` when the instance is
valid; otherwise the single raised `ValidationError`.  `best_match` picks
by a relevance heuristic, with ties going to the first error collected;
modelled as the first collected error. -/
def pyValidate (s : MiniSchema) (v : Json) : Option VError :=
  (iterErrors s v).head?

/-- `"/".join(str(p) for p in e.path) or "<root>"` from `verify.py`. -/
def renderPath (path : List String) : String :=
  let joined := String.intercalate "/" path
  if joined = "" then "<root>" else joined

/-- One loop iteration of `main` in `model_catalog/verify.py`: the lines
printed for one model file.  A `json.JSONDecodeError` is caught separately
from a `ValidationError` and rendered with the file name, line and
column; schema failure is rendered as message plus slash-joined path. -/
def verifyFileLines (schema : MiniSchema) (f : SrcFile) : List String :=
  match f.parsed with
  | .decodeError msg line col =>
    [f.name ++ ": invalid JSON - " ++ msg ++ " at line " ++ toString line
      ++ " column " ++ toString col]
  | .ok data =>
    match pyValidate schema data with
    | none => [f.name ++ " follows schema."]
    | some e => [f.name ++ ": " ++ e.message ++ " [path: " ++ renderPath e.path ++ "]"]

/-- `main` of `model_catalog/verify.py` over the whole directory. -/
def verifyMainRun (schema : MiniSchema) (files : List SrcFile) : List String :=
  (globSorted files).flatMap (verifyFileLines schema)

/-- The module-level load phase of `validate_models.py` (its lines 5–11):
`json.load` on the data file with no `try`/`except`, so a decode error
propagates and aborts the program; the exception's text carries the
message, line and column but not the file name. -/
def validateModelsLoad (dataF : SrcFile) : Except String Json :=
  match dataF.parsed with
  | .ok v => .ok v
  | .decodeError msg line col =>
    .error ("json.decoder.JSONDecodeError: " ++ msg ++ ": line " ++ toString line
      ++ " column " ++ toString col)

/-- `gateway/src/model_catalog/verify.py`: `json.load` on the data file
with no `try`/`except` (a decode error aborts the program), then a single
`validate` whose failure prints three lines. -/
def gatewayVerifyRun (schema : MiniSchema) (dataF : SrcFile) : Except String (List String) :=
  match dataF.parsed with
  | .decodeError msg line col =>
    .error ("json.decoder.JSONDecodeError: " ++ msg ++ ": line " ++ toString line
      ++ " column " ++ toString col)
  | .ok data =>
    match pyValidate schema data with
    | none => .ok ["JSON is valid!"]
    | some e =>
      .ok ["JSON is invalid!", "Error: " ++ e.message,
           "Path: [" ++ String.intercalate ", " (e.path.map (fun p => "'" ++ p ++ "'")) ++ "]"]

/-- The failure report C3's spec sentence describes, written from the
spec's words (not from the code), for comparison with `verifyFileLines`:
ALL violated constraints of the entry, sorted by structural path, each
rendered as a slash-joined path plus message. -/
def claimedFailureReport (schema : MiniSchema) (f : SrcFile) (data : Json) : List String :=
  ((iterErrors schema data).insertionSort
      (fun a b =>
        charListLE (String.intercalate "/" a.path).data
          (String.intercalate "/" b.path).data = true)).map
    (fun e => f.name ++ ": " ++ e.message ++ " [path: " ++ renderPath e.path ++ "]")


/-! ### Basic lemmas about the embedding -/

theorem getKey_setKey_self (kvs : List (String × Json)) (k : String) (v : Json) :
    getKey (setKey kvs k v) k = some v := by
  induction kvs with
  | nil => simp [setKey, getKey]
  | cons kv rest ih =>
    by_cases h : kv.1 = k <;> simp [setKey, getKey, h, ih]

theorem getKey_setKey_ne (kvs : List (String × Json)) (k k' : String) (v : Json)
    (h : k' ≠ k) : getKey (setKey kvs k v) k' = getKey kvs k' := by
  induction kvs with
  | nil => simp [setKey, getKey, Ne.symm h]
  | cons kv rest ih =>
    by_cases hk : kv.1 = k
    · simp [setKey, getKey, hk, Ne.symm h]
    · by_cases hk' : kv.1 = k' <;> simp [setKey, getKey, hk, hk', h, ih]

theorem jget_bundledRecord_id (name : String) (kvs : List (String × Json)) :
    jget (bundledRecord name kvs) "id" = some (.str (deriveId name kvs)) := by
  have h1 : ("id" : String) ≠ "__filename" := by decide
  simp [bundledRecord, jget, getKey_setKey_ne _ _ _ _ h1, getKey_setKey_self]

theorem jget_bundledRecord_filename (name : String) (kvs : List (String × Json)) :
    jget (bundledRecord name kvs) "__filename" = some (.str name) := by
  simp [bundledRecord, jget, getKey_setKey_self]

theorem jget_bundledRecord_other (name : String) (kvs : List (String × Json))
    (k : String) (h1 : k ≠ "id") (h2 : k ≠ "__filename") :
    jget (bundledRecord name kvs) k = getKey kvs k := by
  simp [bundledRecord, jget, getKey_setKey_ne _ _ _ _ h2, getKey_setKey_ne _ _ _ _ h1]

theorem processFile_eq_some {f : SrcFile} {r : Json} (h : processFile f = some r) :
    ∃ kvs, f.parsed = .ok (.obj kvs) ∧ r = bundledRecord f.name kvs := by
  unfold processFile at h
  cases hp : f.parsed with
  | ok v =>
    rw [hp] at h
    cases v with
    | obj kvs =>
      refine ⟨kvs, rfl, ?_⟩
      simpa [processValue] using h.symm
    | null => simp [processValue] at h
    | bool b => simp [processValue] at h
    | num n => simp [processValue] at h
    | str s => simp [processValue] at h
    | arr xs => simp [processValue] at h
  | decodeError msg line col => rw [hp] at h; simp at h

theorem mem_globSorted {f : SrcFile} {files : List SrcFile}
    (h : f ∈ globSorted files) : f ∈ files := by
  have h1 : f ∈ jsonFiles files :=
    (List.perm_insertionSort fileLE _).mem_iff.mp h
  exact List.mem_of_mem_filter h1

theorem filterMap_filenames (l : List SrcFile) :
    (l.filterMap processFile).map (fun r => jget r "__filename") =
      (l.filter (fun f => (processFile f).isSome)).map (fun f => some (Json.str f.name)) := by
  induction l with
  | nil => rfl
  | cons f rest ih =>
    cases hpf : processFile f with
    | none => simp [List.filterMap_cons, List.filter_cons, hpf, ih]
    | some r =>
      obtain ⟨kvs, _, hr⟩ := processFile_eq_some hpf
      subst hr
      simp [List.filterMap_cons, List.filter_cons, hpf, ih, jget_bundledRecord_filename]

/-! ### Claim theorems -/

/-- C6: every record the Bundler appends to the bundle's `models` sequence
carries a synthesized `id` field and an `__filename` field equal to the
name of the source file it came from; no record lacking either field
enters the bundle. -/
theorem C6_records_have_id_and_filename (files : List SrcFile) (r : Json)
    (h : r ∈ (loadModels files).1) :
    (∃ s, jget r "id" = some (.str s)) ∧
      ∃ f, f ∈ files ∧ jget r "__filename" = some (.str f.name) := by
  obtain ⟨f, hf, hpf⟩ := List.mem_filterMap.mp h
  obtain ⟨kvs, _, hr⟩ := processFile_eq_some hpf
  subst hr
  exact ⟨⟨deriveId f.name kvs, jget_bundledRecord_id _ _⟩,
    f, mem_globSorted hf, jget_bundledRecord_filename _ _⟩

def gpt5Kvs : List (String × Json) := [("provider", .str "openai"), ("model_name", .str "gpt5")]

def gpt5File : SrcFile := ⟨"gpt5.json", .ok (.obj gpt5Kvs)⟩

theorem C6_witness :
    (∃ s, jget (bundledRecord "gpt5.json" gpt5Kvs) "id" = some (.str s)) ∧
      ∃ f, f ∈ [gpt5File] ∧
        jget (bundledRecord "gpt5.json" gpt5Kvs) "__filename" = some (.str f.name) := by
  have hlist : (loadModels [gpt5File]).1 = [bundledRecord "gpt5.json" gpt5Kvs] := rfl
  exact C6_records_have_id_and_filename [gpt5File] (bundledRecord "gpt5.json" gpt5Kvs)
    (by rw [hlist]; exact List.mem_singleton.mpr rfl)

/-- C7: the Bundler's `models` output is ordered by ascending filename:
its i-th record carries the i-th name of the sorted `*.json` listing,
restricted to the files that yield a record. -/
theorem C7_output_sorted_by_filename (files : List SrcFile) :
    (loadModels files).1.map (fun r => jget r "__filename") =
      ((globSorted files).filter (fun f => (processFile f).isSome)).map
        (fun f => some (Json.str f.name)) ∧
      List.Sorted fileLE ((globSorted files).filter (fun f => (processFile f).isSome)) :=
  ⟨filterMap_filenames _,
   List.Pairwise.filter _ (List.sorted_insertionSort fileLE _)⟩

/-- C8: two Bundler runs over the same directory contents produce bundles
with identical `models` sequences, differing at most in `generated_at`. -/
theorem C8_two_runs_differ_only_in_timestamp (files : List SrcFile)
    (t₁ t₂ : String) (b₁ b₂ : Bundle)
    (h₁ : mainRun true files t₁ = .ok b₁) (h₂ : mainRun true files t₂ = .ok b₂) :
    b₁.models = b₂.models ∧ (b₁.generated_at = b₂.generated_at → b₁ = b₂) := by
  have e₁ : b₁ = mkBundle t₁ (loadModels files).1 := by
    simpa [mainRun] using h₁.symm
  have e₂ : b₂ = mkBundle t₂ (loadModels files).1 := by
    simpa [mainRun] using h₂.symm
  subst e₁; subst e₂
  exact ⟨rfl, fun h => by simp [mkBundle] at h ⊢; exact h⟩

theorem C8_witness :
    (mkBundle "t1" (loadModels [gpt5File]).1).models =
        (mkBundle "t2" (loadModels [gpt5File]).1).models ∧
      ((mkBundle "t1" (loadModels [gpt5File]).1).generated_at =
          (mkBundle "t2" (loadModels [gpt5File]).1).generated_at →
        mkBundle "t1" (loadModels [gpt5File]).1 = mkBundle "t2" (loadModels [gpt5File]).1) :=
  C8_two_runs_differ_only_in_timestamp [gpt5File] "t1" "t2" _ _ rfl rfl

/-- C9: the Bundler fails fatally exactly when the models directory is
missing; with an existing directory the run completes whatever the files
contain, producing the bundle. -/
theorem C9_fatal_iff_dir_missing (dirExists : Bool) (files : List SrcFile) (now : String) :
    ((∃ e, mainRun dirExists files now = .error e) ↔ dirExists = false) ∧
      mainRun true files now = .ok (mkBundle now (loadModels files).1) := by
  refine ⟨?_, rfl⟩
  cases dirExists <;> simp [mainRun]

/-- C10: bundling a record only touches the `id` and `__filename` keys:
every other key keeps the value it has in the source file, while `id` and
`__filename` are overwritten with the synthesized values even when the
source file already had them. -/
theorem C10_frame_only_id_and_filename (f : SrcFile) (kvs : List (String × Json))
    (k : String) (h : f.parsed = .ok (.obj kvs)) (h1 : k ≠ "id") (h2 : k ≠ "__filename") :
    processFile f = some (bundledRecord f.name kvs) ∧
      jget (bundledRecord f.name kvs) k = getKey kvs k ∧
      jget (bundledRecord f.name kvs) "id" = some (.str (deriveId f.name kvs)) ∧
      jget (bundledRecord f.name kvs) "__filename" = some (.str f.name) :=
  ⟨by simp [processFile, h, processValue],
   jget_bundledRecord_other _ _ _ h1 h2,
   jget_bundledRecord_id _ _, jget_bundledRecord_filename _ _⟩

def frameKvs : List (String × Json) :=
  [("provider", .str "openai"), ("id", .str "stale"), ("__filename", .str "stale.json")]

def frameFile : SrcFile := ⟨"a.json", .ok (.obj frameKvs)⟩

theorem C10_witness :
    processFile frameFile = some (bundledRecord frameFile.name frameKvs) ∧
      jget (bundledRecord frameFile.name frameKvs) "provider" = getKey frameKvs "provider" ∧
      jget (bundledRecord frameFile.name frameKvs) "id" =
        some (.str (deriveId frameFile.name frameKvs)) ∧
      jget (bundledRecord frameFile.name frameKvs) "__filename" =
        some (.str frameFile.name) :=
  C10_frame_only_id_and_filename frameFile frameKvs "provider" rfl
    (by decide) (by decide)

theorem pyStr_orElse (v : Json) (d : String) :
    (if v.truthy then v else Json.str d).pyStr = if v.truthy then v.pyStr else d := by
  cases h : v.truthy <;> simp [Json.pyStr]

/-- The id-derivation rule C1 states, written from the spec's words for
comparison with `deriveId`: `provider` defaults to `"unknown"` and
`model_name` to the file's stem only when the key is ABSENT. -/
def specDeriveIdAbsent (name : String) (kvs : List (String × Json)) : String :=
  (match getKey kvs "provider" with
   | some pv => pv.pyStr
   | none => "unknown") ++ "/" ++
  (match getKey kvs "model_name" with
   | some mv => mv.pyStr
   | none => stem name)

/-- The amended id-derivation rule: like `specDeriveIdAbsent`, but the
default also applies when the key is present with a falsy value,
mirroring Python's `or`. -/
def specDeriveIdFalsy (name : String) (kvs : List (String × Json)) : String :=
  (match getKey kvs "provider" with
   | some pv => if pv.truthy then pv.pyStr else "unknown"
   | none => "unknown") ++ "/" ++
  (match getKey kvs "model_name" with
   | some mv => if mv.truthy then mv.pyStr else stem name
   | none => stem name)

theorem getOrDefault_str_pyStr (kvs : List (String × Json)) (k : String) (d : String) :
    (getOrDefault kvs k (.str d)).pyStr =
      match getKey kvs k with
      | some v => if v.truthy then v.pyStr else d
      | none => d := by
  unfold getOrDefault
  cases getKey kvs k with
  | none => simp [Json.pyStr]
  | some v => cases h : v.truthy <;> simp [h, pyStr_orElse, Json.pyStr]

theorem deriveId_eq_specFalsy (name : String) (kvs : List (String × Json)) :
    deriveId name kvs = specDeriveIdFalsy name kvs := by
  unfold deriveId specDeriveIdFalsy
  rw [getOrDefault_str_pyStr, getOrDefault_str_pyStr]

def emptyProviderKvs : List (String × Json) := [("provider", .str ""), ("model_name", .str "x")]

/-- C1 counterexample: on `{"provider": "", "model_name": "x"}` the
Bundler derives id `"unknown/x"` although `provider` is present (with the
falsy value `""`), while the claim's absent-only defaulting rule gives
`"/x"`. -/
theorem C1_counterexample :
    processFile ⟨"m.json", .ok (.obj emptyProviderKvs)⟩ =
        some (bundledRecord "m.json" emptyProviderKvs) ∧
      jget (bundledRecord "m.json" emptyProviderKvs) "id" = some (.str "unknown/x") ∧
      specDeriveIdAbsent "m.json" emptyProviderKvs = "/x" ∧
      ("unknown/x" : String) ≠ "/x" :=
  ⟨rfl, rfl, rfl, by decide⟩

/-- C1 (amended): every bundled record's `id` equals
`{provider}/{model_name}` where `provider` defaults to `"unknown"` when
absent or falsy and `model_name` defaults to the file's stem when absent
or falsy; in particular the records `{"provider":"openai","model_name":"gpt5"}`
and `{"provider":"anthropic","model_name":"claude"}` get ids
`"openai/gpt5"` and `"anthropic/claude"`. -/
theorem C1_id_derivation (f : SrcFile) (kvs : List (String × Json))
    (h : f.parsed = .ok (.obj kvs)) :
    (processFile f = some (bundledRecord f.name kvs) ∧
        jget (bundledRecord f.name kvs) "id" =
          some (.str (specDeriveIdFalsy f.name kvs))) ∧
      jget (bundledRecord "gpt5.json"
          [("provider", .str "openai"), ("model_name", .str "gpt5")]) "id" =
        some (.str "openai/gpt5") ∧
      jget (bundledRecord "claude.json"
          [("provider", .str "anthropic"), ("model_name", .str "claude")]) "id" =
        some (.str "anthropic/claude") := by
  refine ⟨⟨by simp [processFile, h, processValue], ?_⟩, rfl, rfl⟩
  rw [jget_bundledRecord_id, deriveId_eq_specFalsy]

theorem C1_witness :
    (processFile gpt5File = some (bundledRecord gpt5File.name gpt5Kvs) ∧
        jget (bundledRecord gpt5File.name gpt5Kvs) "id" =
          some (.str (specDeriveIdFalsy gpt5File.name gpt5Kvs))) ∧
      jget (bundledRecord "gpt5.json"
          [("provider", .str "openai"), ("model_name", .str "gpt5")]) "id" =
        some (.str "openai/gpt5") ∧
      jget (bundledRecord "claude.json"
          [("provider", .str "anthropic"), ("model_name", .str "claude")]) "id" =
        some (.str "anthropic/claude") :=
  C1_id_derivation gpt5File gpt5Kvs rfl

/-- C2 counterexample: bundling `gpt5.json` containing `{}` yields a
record whose `id` is `"unknown/gpt5"` but which has NO `provider` or
`model_name` key at all — the Bundler never writes those keys, so the
claim that the bundled record has `provider = "unknown"` and
`model_name = "gpt5"` is false. -/
theorem C2_counterexample :
    processFile ⟨"gpt5.json", .ok (.obj [])⟩ = some (bundledRecord "gpt5.json" []) ∧
      jget (bundledRecord "gpt5.json" []) "provider" = none ∧
      jget (bundledRecord "gpt5.json" []) "model_name" = none ∧
      jget (bundledRecord "gpt5.json" []) "provider" ≠ some (.str "unknown") ∧
      jget (bundledRecord "gpt5.json" []) "id" = some (.str "unknown/gpt5") := by
  refine ⟨rfl, rfl, rfl, ?_, rfl⟩
  intro hc
  rw [show jget (bundledRecord "gpt5.json" []) "provider" = none from rfl] at hc
  exact Option.noConfusion hc

/-- C2 (amended): a model file whose object has neither a `provider` nor
a `model_name` key is bundled with `id = "unknown/<stem>"`; the record
itself still has no `provider` or `model_name` key (the Bundler only uses
the defaults to derive `id`). -/
theorem C2_missing_keys (f : SrcFile) (kvs : List (String × Json))
    (h : f.parsed = .ok (.obj kvs))
    (hp : getKey kvs "provider" = none) (hm : getKey kvs "model_name" = none) :
    processFile f = some (bundledRecord f.name kvs) ∧
      jget (bundledRecord f.name kvs) "id" =
        some (.str ("unknown/" ++ stem f.name)) ∧
      jget (bundledRecord f.name kvs) "provider" = none ∧
      jget (bundledRecord f.name kvs) "model_name" = none := by
  have hid : deriveId f.name kvs = "unknown/" ++ stem f.name := by
    unfold deriveId getOrDefault
    rw [hp, hm]
    simp [Json.pyStr]
  refine ⟨by simp [processFile, h, processValue], ?_, ?_, ?_⟩
  · rw [jget_bundledRecord_id, hid]
  · rw [jget_bundledRecord_other _ _ _ (by decide) (by decide), hp]
  · rw [jget_bundledRecord_other _ _ _ (by decide) (by decide), hm]

theorem C2_witness :
    processFile ⟨"empty.json", .ok (.obj [])⟩ = some (bundledRecord "empty.json" []) ∧
      jget (bundledRecord "empty.json" []) "id" =
        some (.str ("unknown/" ++ stem "empty.json")) ∧
      jget (bundledRecord "empty.json" []) "provider" = none ∧
      jget (bundledRecord "empty.json" []) "model_name" = none :=
  C2_missing_keys ⟨"empty.json", .ok (.obj [])⟩ [] rfl rfl rfl

def isParsedOk (f : SrcFile) : Bool :=
  match f.parsed with
  | .ok _ => true
  | .decodeError _ _ _ => false

def isMalformed (f : SrcFile) : Bool :=
  match f.parsed with
  | .ok _ => false
  | .decodeError _ _ _ => true

def arrFile : SrcFile := ⟨"a.json", .ok (.arr [.num 1])⟩

/-- C4 counterexample: a directory holding one syntactically valid JSON
file whose top level is an array (`[1]`): N = 1 valid files and M = 0
malformed ones, yet the bundle gets 0 records and 1 warning, because the
`except Exception` branch also swallows the `AttributeError` raised by
`obj.get` on a non-dict. -/
theorem C4_counterexample :
    (jsonFiles [arrFile]).countP isParsedOk = 1 ∧
      (jsonFiles [arrFile]).countP isMalformed = 0 ∧
      (loadModels [arrFile]).1.length = 0 ∧
      (loadModels [arrFile]).2 =
        ["[warn] Skipping a.json: 'list' object has no attribute 'get'"] ∧
      (loadModels [arrFile]).1.length ≠ (jsonFiles [arrFile]).countP isParsedOk :=
  ⟨rfl, rfl, rfl, rfl, by decide⟩

theorem length_filterMap_processFile (l : List SrcFile) :
    (l.filterMap processFile).length = l.countP (fun f => (processFile f).isSome) := by
  induction l with
  | nil => rfl
  | cons f rest ih =>
    cases hpf : processFile f <;>
      simp [List.filterMap_cons, List.countP_cons, hpf, ih]

theorem countP_isSome_add_isNone (l : List SrcFile) :
    l.countP (fun f => (processFile f).isSome) +
        l.countP (fun f => (processFile f).isNone) = l.length := by
  induction l with
  | nil => rfl
  | cons f rest ih =>
    cases hpf : processFile f <;> simp [List.countP_cons, hpf] <;> omega

/-- C4 (amended): for every input directory, the Bundler's `models`
sequence has one entry per `*.json` file that parses to a JSON object,
and one warning is emitted per remaining `*.json` file (malformed, or
syntactically valid but not an object), each warning of the form
`[warn] Skipping <file>: <error>` naming the skipped file and the
exception; every `*.json` file is accounted for by exactly one of the
two, and no file aborts the run. -/
theorem C4_entry_and_warning_counts (files : List SrcFile) :
    (loadModels files).1.length =
        (jsonFiles files).countP (fun f => (processFile f).isSome) ∧
      (loadModels files).2 =
        ((globSorted files).filter (fun f => (processFile f).isNone)).map
          (fun f => "[warn] Skipping " ++ f.name ++ ": " ++ skipError f) ∧
      (loadModels files).2.length =
        (jsonFiles files).countP (fun f => (processFile f).isNone) ∧
      (loadModels files).1.length + (loadModels files).2.length =
        (jsonFiles files).length := by
  have hperm : (globSorted files).Perm (jsonFiles files) :=
    List.perm_insertionSort fileLE _
  have h1 : (loadModels files).1.length =
      (jsonFiles files).countP (fun f => (processFile f).isSome) := by
    show ((globSorted files).filterMap processFile).length = _
    rw [length_filterMap_processFile, hperm.countP_eq]
  have h2 : (loadModels files).2.length =
      (jsonFiles files).countP (fun f => (processFile f).isNone) := by
    show (((globSorted files).filter (fun f => (processFile f).isNone)).map skipWarning).length = _
    rw [List.length_map, ← List.countP_eq_length_filter, hperm.countP_eq]
  refine ⟨h1, rfl, h2, ?_⟩
  rw [h1, h2, countP_isSome_add_isNone]

def c3Schema : MiniSchema := .mk none ["a", "b"] []

def c3File : SrcFile := ⟨"m.json", .ok (.obj [])⟩

/-- C3 counterexample: validating `{}` against a schema requiring the two
properties `a` and `b` violates two constraints, but the Validator's
report for the entry holds a single line (the one error `validate`
raised), not both violations sorted by path. -/
theorem C3_counterexample :
    (iterErrors c3Schema (.obj [])).length = 2 ∧
      (verifyFileLines c3Schema c3File).length = 1 ∧
      verifyFileLines c3Schema c3File ≠ claimedFailureReport c3Schema c3File (.obj []) := by
  refine ⟨rfl, rfl, ?_⟩
  intro hc
  have h1 : (verifyFileLines c3Schema c3File).length = 1 := rfl
  have h2 : (claimedFailureReport c3Schema c3File (.obj [])).length = 2 := rfl
  rw [hc] at h1
  exact (by decide : (1 : Nat) ≠ 2) (h1.symm.trans h2)

/-- C3 (amended): on schema-validation failure of an entry, the Validator
reports exactly one of the entry's violated constraints — the single
error raised by the `validate` call — rendered as a slash-joined path
plus message; violations beyond the raised one are not reported. -/
theorem C3_single_violation_reported (schema : MiniSchema) (f : SrcFile)
    (data : Json) (e : VError)
    (h : f.parsed = .ok data) (he : pyValidate schema data = some e) :
    verifyFileLines schema f =
        [f.name ++ ": " ++ e.message ++ " [path: " ++ renderPath e.path ++ "]"] ∧
      e ∈ iterErrors schema data := by
  refine ⟨by simp [verifyFileLines, h, he], ?_⟩
  exact List.mem_of_mem_head? (Option.mem_def.mpr he)

theorem C3_witness :
    verifyFileLines c3Schema c3File =
        ["m.json" ++ ": " ++ "'a' is a required property" ++ " [path: "
          ++ renderPath [] ++ "]"] ∧
      (⟨[], "'a' is a required property"⟩ : VError) ∈ iterErrors c3Schema (.obj []) :=
  C3_single_violation_reported c3Schema c3File (.obj [])
    ⟨[], "'a' is a required property"⟩ rfl rfl

def malformedFile : SrcFile := ⟨"gpt5.json", .decodeError "Expecting value" 1 1⟩

def trivialSchema : MiniSchema := .mk none [] []

/-- C5 counterexample: on a malformed data file, `validate_models.py` and
the gateway `verify.py` both propagate the `JSONDecodeError` uncaught
(aborting the program) instead of catching it and reporting file name,
line and column, so the claim fails for those two Validator variants. -/
theorem C5_counterexample :
    validateModelsLoad malformedFile =
        .error "json.decoder.JSONDecodeError: Expecting value: line 1 column 1" ∧
      gatewayVerifyRun trivialSchema malformedFile =
        .error "json.decoder.JSONDecodeError: Expecting value: line 1 column 1" :=
  ⟨rfl, rfl⟩

/-- C5 (amended): only the directory-scanning Validator
(`model_catalog/verify.py`'s `main`) catches malformed JSON distinctly
from schema validation and reports it with the file's name, line and
column; `validate_models.py` and `gateway/src/model_catalog/verify.py`
propagate the decode exception uncaught. -/
theorem C5_decode_error_handling (schema : MiniSchema) (f : SrcFile)
    (msg : String) (line col : Nat) (h : f.parsed = .decodeError msg line col) :
    verifyFileLines schema f =
        [f.name ++ ": invalid JSON - " ++ msg ++ " at line " ++ toString line
          ++ " column " ++ toString col] ∧
      validateModelsLoad f =
        .error ("json.decoder.JSONDecodeError: " ++ msg ++ ": line " ++ toString line
          ++ " column " ++ toString col) ∧
      gatewayVerifyRun schema f =
        .error ("json.decoder.JSONDecodeError: " ++ msg ++ ": line " ++ toString line
          ++ " column " ++ toString col) := by
  refine ⟨?_, ?_, ?_⟩ <;>
    simp [verifyFileLines, validateModelsLoad, gatewayVerifyRun, h]

theorem C5_witness :
    verifyFileLines trivialSchema malformedFile =
        ["gpt5.json" ++ ": invalid JSON - " ++ "Expecting value" ++ " at line "
          ++ toString 1 ++ " column " ++ toString 1] ∧
      validateModelsLoad malformedFile =
        .error ("json.decoder.JSONDecodeError: " ++ "Expecting value" ++ ": line "
          ++ toString 1 ++ " column " ++ toString 1) ∧
      gatewayVerifyRun trivialSchema malformedFile =
        .error ("json.decoder.JSONDecodeError: " ++ "Expecting value" ++ ": line "
          ++ toString 1 ++ " column " ++ toString 1) :=
  C5_decode_error_handling trivialSchema malformedFile "Expecting value" 1 1 rfl
